import Mathlib

/-!
Shallow embedding of `pkg/templates/machinecontroller/helper.go` from the
kubeone repository: package `machinecontroller` (the machine-deletion
cascade `DeleteAllMachines`) and package `e2e` (the terraform-driven
provisioners for AWS / DigitalOcean / Hetzner).

External collaborators — the Kubernetes dynamic client, `os.Getenv`, and
the command runner `executeCommand` — are modelled as oracles supplied as
arguments.  Every embedded function additionally returns the trace of
calls it made to those collaborators, so that call-ordering and
"nothing was invoked" properties can be stated and proved.
-/

namespace machinecontroller

/-- The three cluster-api resource kinds touched by the deletion cascade. -/
inductive Kind
  | machineDeployment
  | machineSet
  | machine
deriving DecidableEq

/-- Errors returned by the cluster client, at the granularity the code
classifies them: `errorsutil.IsTimeout` recognises `timeout`,
`errorsutil.IsServerTimeout` recognises `serverTimeout`; `notFound` stands
for a "kind is not registered / CRD not deployed" response, and `other`
for any further cause (forbidden, network failure, ...). -/
inductive K8sError
  | timeout
  | serverTimeout
  | notFound
  | other (msg : String)
deriving DecidableEq

/-- Embeds `errorsutil.IsTimeout` (true exactly for a Timeout status reason). -/
def IsTimeout : K8sError → Bool
  | .timeout => true
  | _ => false

/-- Embeds `errorsutil.IsServerTimeout` (true exactly for a ServerTimeout
status reason). -/
def IsServerTimeout : K8sError → Bool
  | .serverTimeout => true
  | _ => false

/-- The dynamic cluster client (`ctx.DynamicClient`) as an oracle.  Objects
are identified by name only.  `listM` is indexed by the number of Machine
list calls made so far, because the cluster state evolves while the
convergence poll runs (machines are finalized asynchronously). -/
structure Client where
  listMD : Except K8sError (List String)
  deleteMD : String → Option K8sError
  listMS : Except K8sError (List String)
  deleteMS : String → Option K8sError
  listM : Nat → Except K8sError (List String)
  deleteM : String → Option K8sError

/-- Observable events of one `DeleteAllMachines` run: list calls, delete
calls (with the deleted object's name) against the cluster client, and
sleeps (in seconds) performed by the poll loop. -/
inductive Event
  | listCall (k : Kind)
  | deleteCall (k : Kind) (name : String)
  | sleep (seconds : Nat)
deriving DecidableEq

/-- The errors `DeleteAllMachines` can return: the nil-client error, a
wrapped list/delete failure carrying its stage (resource kind) context, or
`wait.ErrWaitTimeout` from the convergence poll. -/
inductive DError
  | notInitialized
  | listFailed (k : Kind) (e : K8sError)
  | deleteFailed (k : Kind) (e : K8sError)
  | waitTimeout
deriving DecidableEq

/-- The slice of `util.Context` that `DeleteAllMachines` reads:
`ctx.Cluster.MachineController.Deploy` and `ctx.DynamicClient`
(`none` models a nil client). -/
structure Context where
  deploy : Bool
  dynamicClient : Option Client

/-- Embeds one `for _, obj := range list.Items { ... Delete(ctx, &obj) ... }`
loop from `DeleteAllMachines`: delete each object in order, stopping at the
first failure. -/
def deleteLoop (k : Kind) (del : String → Option K8sError) :
    List String → List Event × Option K8sError
  | [] => ([], none)
  | x :: xs =>
    match del x with
    | some e => ([.deleteCall k x], some e)
    | none =>
      let r := deleteLoop k del xs
      (.deleteCall k x :: r.1, r.2)

/-- Number of ticks of `wait.Poll(5*time.Second, 3*time.Minute, ...)`:
the poller ticks every 5 seconds until the 180-second timeout elapses. -/
def pollIterations : Nat := 180 / 5

/-- Embeds the `wait.Poll(5*time.Second, 3*time.Minute, cond)` call at the
end of `DeleteAllMachines`, with the condition closure inlined: list the
Machine objects and report done exactly when the collection is empty.
`wait.Poll` (k8s.io/apimachinery) always waits the interval before each
run of the condition, so every condition check is preceded by a 5-second
sleep; when the ticks are exhausted without the condition holding, it
returns `ErrWaitTimeout`.  `idx` threads the Machine-list call counter. -/
def pollMachines (c : Client) : Nat → Nat → List Event × Except DError Unit
  | 0, _ => ([], .error .waitTimeout)
  | fuel + 1, idx =>
    match c.listM idx with
    | .error e => ([.sleep 5, .listCall .machine], .error (.listFailed .machine e))
    | .ok l =>
      if l.length ≠ 0 then
        let r := pollMachines c fuel (idx + 1)
        (.sleep 5 :: .listCall .machine :: r.1, r.2)
      else
        ([.sleep 5, .listCall .machine], .ok ())

/-- Embeds `DeleteAllMachines` (helper.go lines 83-142): feature-flag
check, nil-client check, then list+delete MachineDeployments (a list
failure that is neither a timeout nor a server timeout is treated as "CRD
not deployed" and reported as success), list+delete MachineSets,
list+delete Machines, and finally the convergence poll. -/
def DeleteAllMachines (ctx : Context) : List Event × Except DError Unit :=
  if !ctx.deploy then
    ([], .ok ())
  else
    match ctx.dynamicClient with
    | none => ([], .error .notInitialized)
    | some client =>
      match client.listMD with
      | .error e =>
        if IsTimeout e || IsServerTimeout e then
          ([.listCall .machineDeployment], .error (.listFailed .machineDeployment e))
        else
          ([.listCall .machineDeployment], .ok ())
      | .ok mdItems =>
        let md := deleteLoop .machineDeployment client.deleteMD mdItems
        match md.2 with
        | some e =>
          (.listCall .machineDeployment :: md.1, .error (.deleteFailed .machineDeployment e))
        | none =>
          match client.listMS with
          | .error e =>
            (.listCall .machineDeployment :: md.1 ++ [.listCall .machineSet],
             .error (.listFailed .machineSet e))
          | .ok msItems =>
            let ms := deleteLoop .machineSet client.deleteMS msItems
            match ms.2 with
            | some e =>
              (.listCall .machineDeployment :: md.1 ++ .listCall .machineSet :: ms.1,
               .error (.deleteFailed .machineSet e))
            | none =>
              match client.listM 0 with
              | .error e =>
                (.listCall .machineDeployment :: md.1 ++ .listCall .machineSet :: ms.1
                   ++ [.listCall .machine],
                 .error (.listFailed .machine e))
              | .ok mItems =>
                let m := deleteLoop .machine client.deleteM mItems
                match m.2 with
                | some e =>
                  (.listCall .machineDeployment :: md.1 ++ .listCall .machineSet :: ms.1
                     ++ .listCall .machine :: m.1,
                   .error (.deleteFailed .machine e))
                | none =>
                  let p := pollMachines client pollIterations 1
                  (.listCall .machineDeployment :: md.1 ++ .listCall .machineSet :: ms.1
                     ++ .listCall .machine :: m.1 ++ p.1,
                   p.2)

/-- Rank of a kind in the deletion hierarchy (higher-level kinds first). -/
def rank : Kind → Nat
  | .machineDeployment => 0
  | .machineSet => 1
  | .machine => 2

/-- Projects a trace event to the kind of a delete call, if it is one. -/
def deleteKind : Event → Option Kind
  | .deleteCall k _ => some k
  | _ => none

/-- The sequence of resource kinds of the delete calls in a trace. -/
def deleteKinds (t : List Event) : List Kind := t.filterMap deleteKind

end machinecontroller

namespace e2e

/-- The `tfStateFileName` constant. -/
def tfStateFileName : String := "terraform.tfstate"

/-- One subprocess invocation: working directory, program name, argument
list (the environment-override parameter of `executeCommand` is always nil
at these call sites and is omitted). -/
structure CmdCall where
  dir : String
  name : String
  args : List String
deriving DecidableEq

/-- Modelled from the spec: the Command Runner interface
`executeCommand(workingDirectory, programName, argumentList, environmentOverrides)`,
whose implementation is not part of the shown source.  It returns the
subprocess's combined output, or on non-zero exit an error carrying that
combined output.  Together with `os.Getenv` (which returns the empty
string for an unset variable) it forms the environment oracle passed to
the embedded functions. -/
structure Env where
  getenv : String → String
  exec : CmdCall → Except String String

/-- The `terraform` struct: terraform working directory and the run
identifier (field name `idendifier` kept as in the source). -/
structure terraform where
  terraformDir : String
  idendifier : String
deriving DecidableEq

/-- Embeds `terraform.getTFJson`: run
`terraform output -state=terraform.tfstate -json` in the terraform
directory and return its output, wrapping a failure with
"generating tf json failed". -/
def terraform.getTFJson (p : terraform) (env : Env) :
    List CmdCall × Except String String :=
  let c : CmdCall := ⟨p.terraformDir, "terraform", ["output", "-state=" ++ tfStateFileName, "-json"]⟩
  match env.exec c with
  | .error e => ([c], .error ("generating tf json failed: " ++ e))
  | .ok tf => ([c], .ok tf)

/-- Embeds `terraform.initAndApply`: build the init argument list
(appending the backend-config key exactly when the identifier is
non-empty), run `terraform init`, then `terraform apply -auto-approve`,
then read the output via `getTFJson`; each stage failure is wrapped with
stage context and stops the pipeline. -/
def terraform.initAndApply (p : terraform) (env : Env) :
    List CmdCall × Except String String :=
  let initCmd :=
    if p.idendifier.length > 0 then
      ["init", "--backend-config=key=" ++ p.idendifier]
    else
      ["init"]
  let c1 : CmdCall := ⟨p.terraformDir, "terraform", initCmd⟩
  match env.exec c1 with
  | .error e => ([c1], .error ("terraform init command failed: " ++ e))
  | .ok _ =>
    let c2 : CmdCall := ⟨p.terraformDir, "terraform", ["apply", "-auto-approve"]⟩
    match env.exec c2 with
    | .error e => ([c1, c2], .error ("terraform apply command failed: " ++ e))
    | .ok _ =>
      let r := p.getTFJson env
      (c1 :: c2 :: r.1, r.2)

/-- Embeds `terraform.destroy`: run `terraform destroy -auto-approve` in
the terraform directory; `none` is success, `some msg` a wrapped failure. -/
def terraform.destroy (p : terraform) (env : Env) :
    List CmdCall × Option String :=
  let c : CmdCall := ⟨p.terraformDir, "terraform", ["destroy", "-auto-approve"]⟩
  match env.exec c with
  | .error e => ([c], some ("terraform destroy command failed: " ++ e))
  | .ok _ => ([c], none)

/-- The `AWSProvisioner` struct. -/
structure AWSProvisioner where
  testPath : String
  terraform : terraform
deriving DecidableEq

/-- Embeds `NewAWSProvisioner` (the Go constructor always returns a nil
error, so only the struct is modelled). -/
def NewAWSProvisioner (testPath identifier : String) : AWSProvisioner :=
  ⟨testPath, ⟨"../../examples/terraform/aws/", identifier⟩⟩

/-- Embeds `AWSProvisioner.Provision`: fail if either AWS credential
variable is empty, otherwise delegate to `terraform.initAndApply`. -/
def AWSProvisioner.Provision (p : AWSProvisioner) (env : Env) :
    List CmdCall × Except String String :=
  let awsKeyID := env.getenv "AWS_ACCESS_KEY_ID"
  let awsSecret := env.getenv "AWS_SECRET_ACCESS_KEY"
  if awsKeyID.length == 0 || awsSecret.length == 0 then
    ([], .error "unable to run the test suite, AWS_ACCESS_KEY_ID or AWS_SECRET_ACCESS_KEY environment variables cannot be empty")
  else
    p.terraform.initAndApply env

/-- Embeds `AWSProvisioner.Cleanup`: run `terraform.destroy`; on failure
return that error at once, otherwise run `rm -rf <testPath>` (via the
command runner, with an empty working directory) and return its error, if
any. -/
def AWSProvisioner.Cleanup (p : AWSProvisioner) (env : Env) :
    List CmdCall × Option String :=
  let d := p.terraform.destroy env
  match d.2 with
  | some e => (d.1, some e)
  | none =>
    let c : CmdCall := ⟨"", "rm", ["-rf", p.testPath]⟩
    match env.exec c with
    | .error e => (d.1 ++ [c], some e)
    | .ok _ => (d.1 ++ [c], none)

/-- The `DOProvisioner` struct. -/
structure DOProvisioner where
  testPath : String
  terraform : terraform
deriving DecidableEq

/-- Embeds `NewDOProvisioner`. -/
def NewDOProvisioner (testPath identifier : String) : DOProvisioner :=
  ⟨testPath, ⟨"../../examples/terraform/digitalocean/", identifier⟩⟩

/-- Embeds `DOProvisioner.Provision`: fail if `DIGITALOCEAN_TOKEN` is
empty, otherwise delegate to `terraform.initAndApply`. -/
def DOProvisioner.Provision (p : DOProvisioner) (env : Env) :
    List CmdCall × Except String String :=
  let doToken := env.getenv "DIGITALOCEAN_TOKEN"
  if doToken.length == 0 then
    ([], .error "unable to run the test suite, DIGITALOCEAN_TOKEN environment variable cannot be empty")
  else
    p.terraform.initAndApply env

/-- Embeds `DOProvisioner.Cleanup` (same shape as the AWS variant). -/
def DOProvisioner.Cleanup (p : DOProvisioner) (env : Env) :
    List CmdCall × Option String :=
  let d := p.terraform.destroy env
  match d.2 with
  | some e => (d.1, some e)
  | none =>
    let c : CmdCall := ⟨"", "rm", ["-rf", p.testPath]⟩
    match env.exec c with
    | .error e => (d.1 ++ [c], some e)
    | .ok _ => (d.1 ++ [c], none)

/-- The `HetznerProvisioner` struct. -/
structure HetznerProvisioner where
  testPath : String
  terraform : terraform
deriving DecidableEq

/-- Embeds `NewHetznerProvisioner`. -/
def NewHetznerProvisioner (testPath identifier : String) : HetznerProvisioner :=
  ⟨testPath, ⟨"../../examples/terraform/hetzner/", identifier⟩⟩

/-- Embeds `HetznerProvisioner.Provision`: fail if `HCLOUD_TOKEN` is
empty, otherwise delegate to `terraform.initAndApply`. -/
def HetznerProvisioner.Provision (p : HetznerProvisioner) (env : Env) :
    List CmdCall × Except String String :=
  let hcloudToken := env.getenv "HCLOUD_TOKEN"
  if hcloudToken.length == 0 then
    ([], .error "unable to run the test suite, HCLOUD_TOKEN environment variable cannot be empty")
  else
    p.terraform.initAndApply env

/-- Embeds `HetznerProvisioner.Cleanup` (same shape as the AWS variant). -/
def HetznerProvisioner.Cleanup (p : HetznerProvisioner) (env : Env) :
    List CmdCall × Option String :=
  let d := p.terraform.destroy env
  match d.2 with
  | some e => (d.1, some e)
  | none =>
    let c : CmdCall := ⟨"", "rm", ["-rf", p.testPath]⟩
    match env.exec c with
    | .error e => (d.1 ++ [c], some e)
    | .ok _ => (d.1 ++ [c], none)

end e2e

namespace machinecontroller

/-- A client whose MachineDeployment list fails with a cause that is
neither a timeout nor a kind-not-found response (e.g. a permission
failure); all other calls succeed with empty collections. -/
def clientForbidden : Client :=
  ⟨.error (.other "forbidden"), fun _ => none, .ok [], fun _ => none,
   fun _ => .ok [], fun _ => none⟩

/-- A client whose MachineDeployment list fails with a genuine timeout. -/
def clientTimeoutMD : Client :=
  ⟨.error .timeout, fun _ => none, .ok [], fun _ => none,
   fun _ => .ok [], fun _ => none⟩

/-- A client for which every list call returns an empty collection. -/
def clientEmpty : Client :=
  ⟨.ok [], fun _ => none, .ok [], fun _ => none, fun _ => .ok [], fun _ => none⟩

/-- A client with one object of each kind, successful deletes, and a
Machine collection that is empty from the first poll re-list onward. -/
def clientFull : Client :=
  ⟨.ok ["d1"], fun _ => none, .ok ["s1"], fun _ => none,
   fun n => if n = 0 then .ok ["m1"] else .ok [], fun _ => none⟩

/-- A client whose Machine collection never becomes empty: every Machine
list call reports two machines, while deletes succeed. -/
def clientStuck : Client :=
  ⟨.ok [], fun _ => none, .ok [], fun _ => none,
   fun _ => .ok ["m1", "m2"], fun _ => none⟩

/-- When every individual delete succeeds, the delete loop issues one
delete call per object, in order, and reports no error. -/
theorem deleteLoop_all_ok (k : Kind) (del : String → Option K8sError)
    (h : ∀ x, del x = none) :
    ∀ xs, deleteLoop k del xs = (xs.map (Event.deleteCall k), none) := by
  intro xs
  induction xs with
  | nil => rfl
  | cons x xs ih => simp [deleteLoop, h x, ih]

/-- If every Machine list call succeeds with a non-empty collection, the
poll never reports done and ends with `ErrWaitTimeout`, whatever the
remaining fuel. -/
theorem pollMachines_stuck (c : Client)
    (h : ∀ n, ∃ l, c.listM n = .ok l ∧ l ≠ []) :
    ∀ fuel idx, (pollMachines c fuel idx).2 = .error .waitTimeout := by
  intro fuel
  induction fuel with
  | zero => intro idx; rfl
  | succ n ih =>
    intro idx
    obtain ⟨l, hl, hne⟩ := h idx
    have hlen : l.length ≠ 0 := by simpa using hne
    simp [pollMachines, hl, hlen, ih]

/-- If some Machine list call returns an empty collection, the first poll
iteration whose list is empty ends the poll with success (helper for the
single-iteration case: the very first check already sees the empty list). -/
theorem pollMachines_first_empty (c : Client) (fuel idx : Nat)
    (h : c.listM idx = .ok []) :
    pollMachines c (fuel + 1) idx = ([.sleep 5, .listCall .machine], .ok ()) := by
  simp [pollMachines, h]

/-- C9: if the machine-controller deploy flag is enabled and the dynamic
client is nil, `DeleteAllMachines` fails immediately with the
not-initialized error and issues no list, delete or sleep at all (empty
trace). -/
theorem c9_nil_client_fails_immediately (ctx : Context)
    (h1 : ctx.deploy = true) (h2 : ctx.dynamicClient = none) :
    DeleteAllMachines ctx = ([], .error .notInitialized) := by
  simp [DeleteAllMachines, h1, h2]

/-- Witness for C9 at the concrete context with the flag on and a nil
client. -/
theorem c9_witness :
    DeleteAllMachines ⟨true, none⟩ = ([], .error .notInitialized) :=
  c9_nil_client_fails_immediately ⟨true, none⟩ rfl rfl

/-- C10: the feature-flag check precedes the nil-client check: with the
deploy flag disabled, `DeleteAllMachines` returns success with an empty
trace for every client value, including the nil client, so the
not-initialized error is never reached. -/
theorem c10_flag_checked_before_client (cl : Option Client) :
    DeleteAllMachines ⟨false, cl⟩ = ([], .ok ()) := rfl

/-- C2 counterexample: a MachineDeployment list failure whose cause is
neither kind-not-found nor a timeout (here a permission failure) is NOT
fatal: the whole call returns success after the single list call, contrary
to the claim that only the kind-not-found class is non-fatal. -/
theorem c2_counterexample :
    clientForbidden.listMD = .error (.other "forbidden") ∧
    K8sError.other "forbidden" ≠ K8sError.notFound ∧
    DeleteAllMachines ⟨true, some clientForbidden⟩
      = ([.listCall .machineDeployment], .ok ()) :=
  ⟨rfl, by decide, rfl⟩

/-- C2 (amended): when listing MachineDeployment objects fails, the
outcome is classified two ways, by timeout-ness alone: a timeout or
server-timeout failure is fatal and propagates as a wrapped error, while
EVERY other failure cause (kind-not-registered, but also permission
failures and any further cause) is non-fatal — the call returns success
without attempting MachineSet or Machine deletion. -/
theorem c2_md_list_error_classification (ctx : Context) (c : Client) (e : K8sError)
    (h1 : ctx.deploy = true) (h2 : ctx.dynamicClient = some c)
    (h3 : c.listMD = .error e) :
    (IsTimeout e = true ∨ IsServerTimeout e = true →
      DeleteAllMachines ctx
        = ([.listCall .machineDeployment], .error (.listFailed .machineDeployment e))) ∧
    (IsTimeout e = false → IsServerTimeout e = false →
      DeleteAllMachines ctx = ([.listCall .machineDeployment], .ok ())) := by
  constructor
  · intro h
    rcases h with h | h <;> simp [DeleteAllMachines, h1, h2, h3, h]
  · intro ht hst
    simp [DeleteAllMachines, h1, h2, h3, ht, hst]

/-- Witness for C2 (amended) at a concrete client whose MachineDeployment
list fails with a genuine timeout. -/
theorem c2_witness :
    DeleteAllMachines ⟨true, some clientTimeoutMD⟩
      = ([.listCall .machineDeployment],
         .error (.listFailed .machineDeployment .timeout)) :=
  (c2_md_list_error_classification ⟨true, some clientTimeoutMD⟩ clientTimeoutMD
    .timeout rfl rfl rfl).1 (Or.inl rfl)

/-- C3 counterexample: with every list call returning an empty collection,
`DeleteAllMachines` does return success, but its trace contains a 5-second
sleep: `wait.Poll` waits the interval before the first condition check, so
the poll does not complete in zero iterations. -/
theorem c3_counterexample :
    (DeleteAllMachines ⟨true, some clientEmpty⟩).2 = .ok () ∧
    Event.sleep 5 ∈ (DeleteAllMachines ⟨true, some clientEmpty⟩).1 := by
  constructor
  · rfl
  · decide

/-- C3 (amended): when every list call returns an empty collection,
`DeleteAllMachines` returns success after exactly one poll iteration — the
poll sleeps one 5-second interval, re-lists once, observes zero Machines
and succeeds, so the full trace is the three stage list calls followed by
one sleep and one poll list call. -/
theorem c3_empty_lists_single_poll_iteration (ctx : Context) (c : Client)
    (h1 : ctx.deploy = true) (h2 : ctx.dynamicClient = some c)
    (hmd : c.listMD = .ok []) (hms : c.listMS = .ok [])
    (hm : ∀ n, c.listM n = .ok []) :
    DeleteAllMachines ctx
      = ([.listCall .machineDeployment, .listCall .machineSet, .listCall .machine,
          .sleep 5, .listCall .machine], .ok ()) := by
  have hp : pollMachines c pollIterations 1
      = ([.sleep 5, .listCall .machine], .ok ()) :=
    pollMachines_first_empty c 35 1 (hm 1)
  simp [DeleteAllMachines, h1, h2, hmd, hms, hm 0, deleteLoop, hp]

/-- Witness for C3 (amended) at the concrete all-empty client. -/
theorem c3_witness :
    DeleteAllMachines ⟨true, some clientEmpty⟩
      = ([.listCall .machineDeployment, .listCall .machineSet, .listCall .machine,
          .sleep 5, .listCall .machine], .ok ()) :=
  c3_empty_lists_single_poll_iteration ⟨true, some clientEmpty⟩ clientEmpty
    rfl rfl rfl rfl (fun _ => rfl)

end machinecontroller

namespace machinecontroller

/-- C6: if the flag is on, the client is present, the MachineDeployment
and MachineSet stages succeed, every delete succeeds, and every Machine
list call (the pre-poll one and all poll re-lists) succeeds with a
non-empty collection, then `DeleteAllMachines` ends with the wait-timeout
error of the bounded poll, not with success. -/
theorem c6_nonzero_count_poll_times_out (ctx : Context) (c : Client)
    (h1 : ctx.deploy = true) (h2 : ctx.dynamicClient = some c)
    (mds : List String) (hmd : c.listMD = .ok mds)
    (hdmd : ∀ x, c.deleteMD x = none)
    (mss : List String) (hms : c.listMS = .ok mss)
    (hdms : ∀ x, c.deleteMS x = none)
    (hdm : ∀ x, c.deleteM x = none)
    (hm : ∀ n, ∃ l, c.listM n = .ok l ∧ l ≠ []) :
    (DeleteAllMachines ctx).2 = .error .waitTimeout := by
  obtain ⟨l0, hl0, _⟩ := hm 0
  simp [DeleteAllMachines, h1, h2, hmd, hms, hl0,
        deleteLoop_all_ok _ _ hdmd, deleteLoop_all_ok _ _ hdms,
        deleteLoop_all_ok _ _ hdm, pollMachines_stuck c hm]

/-- Witness for C6 at the concrete client whose Machine count is always
two. -/
theorem c6_witness :
    (DeleteAllMachines ⟨true, some clientStuck⟩).2 = .error .waitTimeout :=
  c6_nonzero_count_poll_times_out ⟨true, some clientStuck⟩ clientStuck
    rfl rfl [] rfl (fun _ => rfl) [] rfl (fun _ => rfl) (fun _ => rfl)
    (fun _ => ⟨["m1", "m2"], rfl, by decide⟩)

/-- Delete-kind projection distributes over trace concatenation. -/
theorem deleteKinds_append (a b : List Event) :
    deleteKinds (a ++ b) = deleteKinds a ++ deleteKinds b := by
  simp [deleteKinds]

/-- Every delete call issued by one delete loop is of that loop's kind. -/
theorem deleteLoop_kinds (k : Kind) (del : String → Option K8sError) :
    ∀ xs, ∀ y ∈ deleteKinds (deleteLoop k del xs).1, y = k := by
  intro xs
  induction xs with
  | nil => simp [deleteLoop, deleteKinds]
  | cons x xs ih =>
    cases h : del x with
    | some e => simp [deleteLoop, h, deleteKinds, deleteKind]
    | none =>
      intro y hy
      simp only [deleteLoop, h] at hy
      rw [show deleteKinds (Event.deleteCall k x :: (deleteLoop k del xs).1)
            = k :: deleteKinds (deleteLoop k del xs).1 by
            simp [deleteKinds, deleteKind]] at hy
      rcases List.mem_cons.mp hy with h | h
      · exact h
      · exact ih y h

/-- The convergence poll issues no delete call. -/
theorem pollMachines_kinds (c : Client) :
    ∀ fuel idx, deleteKinds (pollMachines c fuel idx).1 = [] := by
  intro fuel
  induction fuel with
  | zero => intro idx; rfl
  | succ n ih =>
    intro idx
    cases h : c.listM idx with
    | error e => simp [pollMachines, h, deleteKinds, deleteKind]
    | ok l =>
      by_cases hl : l.length ≠ 0
      · have ih2 := ih (idx + 1)
        simp [pollMachines, h, hl, deleteKinds, deleteKind] at ih2 ⊢
        exact ih2
      · simp [pollMachines, h, hl, deleteKinds, deleteKind]

/-- A list of kinds that is constantly one kind is rank-sorted. -/
theorem pairwise_rank_const (k : Kind) :
    ∀ l : List Kind, (∀ x ∈ l, x = k) →
      List.Pairwise (fun a b => rank a ≤ rank b) l := by
  intro l
  induction l with
  | nil => intro _; exact .nil
  | cons x xs ih =>
    intro h
    constructor
    · intro y hy
      rw [h x (by simp), h y (by simp [hy])]
    · exact ih (fun z hz => h z (by simp [hz]))

/-- Concatenating all-MachineDeployment, all-MachineSet and all-Machine
kind lists, in that order, yields a rank-sorted list. -/
theorem pairwise_rank_three (a b c : List Kind)
    (ha : ∀ x ∈ a, x = .machineDeployment)
    (hb : ∀ x ∈ b, x = .machineSet)
    (hc : ∀ x ∈ c, x = .machine) :
    List.Pairwise (fun x y => rank x ≤ rank y) (a ++ b ++ c) := by
  rw [List.pairwise_append]
  refine ⟨?_, pairwise_rank_const _ c hc, ?_⟩
  · rw [List.pairwise_append]
    refine ⟨pairwise_rank_const _ a ha, pairwise_rank_const _ b hb, ?_⟩
    intro x hx y hy
    rw [ha x hx, hb y hy]
    decide
  · intro x hx y hy
    rw [hc y hy]
    rcases List.mem_append.mp hx with h | h
    · rw [ha x h]; decide
    · rw [hb x h]; decide

/-- In every trace `DeleteAllMachines` can produce (successful or not),
the kinds of the delete calls appear in non-decreasing rank order:
MachineDeployment deletes first, then MachineSet deletes, then Machine
deletes. -/
theorem deleteAllMachines_delete_order (ctx : Context) :
    List.Pairwise (fun a b => rank a ≤ rank b)
      (deleteKinds (DeleteAllMachines ctx).1) := by
  obtain ⟨deploy, cl⟩ := ctx
  cases deploy with
  | false => exact .nil
  | true =>
    cases cl with
    | none => exact .nil
    | some c =>
      cases hmd : c.listMD with
      | error e =>
        by_cases h : IsTimeout e || IsServerTimeout e <;>
          simp [DeleteAllMachines, hmd, h, deleteKinds, deleteKind]
      | ok mdItems =>
        have t1 := deleteLoop_kinds .machineDeployment c.deleteMD mdItems
        cases hd1 : (deleteLoop .machineDeployment c.deleteMD mdItems).2 with
        | some e =>
          simp only [DeleteAllMachines, hmd, hd1, Bool.not_true, Bool.false_eq_true,
            if_false]
          rw [show deleteKinds (Event.listCall .machineDeployment
                :: (deleteLoop .machineDeployment c.deleteMD mdItems).1)
              = deleteKinds (deleteLoop .machineDeployment c.deleteMD mdItems).1 by
              simp [deleteKinds, deleteKind]]
          exact pairwise_rank_const _ _ t1
        | none =>
          cases hms : c.listMS with
          | error e =>
            simp only [DeleteAllMachines, hmd, hd1, hms, Bool.not_true,
              Bool.false_eq_true, if_false]
            rw [show deleteKinds (Event.listCall .machineDeployment
                  :: (deleteLoop .machineDeployment c.deleteMD mdItems).1
                  ++ [Event.listCall .machineSet])
                = deleteKinds (deleteLoop .machineDeployment c.deleteMD mdItems).1 by
                simp [deleteKinds, deleteKind]]
            exact pairwise_rank_const _ _ t1
          | ok msItems =>
            have t2 := deleteLoop_kinds .machineSet c.deleteMS msItems
            cases hd2 : (deleteLoop .machineSet c.deleteMS msItems).2 with
            | some e =>
              simp only [DeleteAllMachines, hmd, hd1, hms, hd2, Bool.not_true,
                Bool.false_eq_true, if_false]
              rw [show deleteKinds (Event.listCall .machineDeployment
                    :: (deleteLoop .machineDeployment c.deleteMD mdItems).1
                    ++ Event.listCall .machineSet
                    :: (deleteLoop .machineSet c.deleteMS msItems).1)
                  = deleteKinds (deleteLoop .machineDeployment c.deleteMD mdItems).1
                    ++ deleteKinds (deleteLoop .machineSet c.deleteMS msItems).1 ++ [] by
                  simp [deleteKinds, deleteKind]]
              exact pairwise_rank_three _ _ _ t1 t2 (by simp)
            | none =>
              cases hm0 : c.listM 0 with
              | error e =>
                simp only [DeleteAllMachines, hmd, hd1, hms, hd2, hm0, Bool.not_true,
                  Bool.false_eq_true, if_false]
                rw [show deleteKinds (Event.listCall .machineDeployment
                      :: (deleteLoop .machineDeployment c.deleteMD mdItems).1
                      ++ Event.listCall .machineSet
                      :: (deleteLoop .machineSet c.deleteMS msItems).1
                      ++ [Event.listCall .machine])
                    = deleteKinds (deleteLoop .machineDeployment c.deleteMD mdItems).1
                      ++ deleteKinds (deleteLoop .machineSet c.deleteMS msItems).1 ++ [] by
                    simp [deleteKinds, deleteKind]]
                exact pairwise_rank_three _ _ _ t1 t2 (by simp)
              | ok mItems =>
                have t3 := deleteLoop_kinds .machine c.deleteM mItems
                cases hd3 : (deleteLoop .machine c.deleteM mItems).2 with
                | some e =>
                  simp only [DeleteAllMachines, hmd, hd1, hms, hd2, hm0, hd3,
                    Bool.not_true, Bool.false_eq_true, if_false]
                  rw [show deleteKinds (Event.listCall .machineDeployment
                        :: (deleteLoop .machineDeployment c.deleteMD mdItems).1
                        ++ Event.listCall .machineSet
                        :: (deleteLoop .machineSet c.deleteMS msItems).1
                        ++ Event.listCall .machine
                        :: (deleteLoop .machine c.deleteM mItems).1)
                      = deleteKinds (deleteLoop .machineDeployment c.deleteMD mdItems).1
                        ++ deleteKinds (deleteLoop .machineSet c.deleteMS msItems).1
                        ++ deleteKinds (deleteLoop .machine c.deleteM mItems).1 by
                      simp [deleteKinds, deleteKind]]
                  exact pairwise_rank_three _ _ _ t1 t2 t3
                | none =>
                  simp only [DeleteAllMachines, hmd, hd1, hms, hd2, hm0, hd3,
                    Bool.not_true, Bool.false_eq_true, if_false]
                  rw [show deleteKinds (Event.listCall .machineDeployment
                        :: (deleteLoop .machineDeployment c.deleteMD mdItems).1
                        ++ Event.listCall .machineSet
                        :: (deleteLoop .machineSet c.deleteMS msItems).1
                        ++ Event.listCall .machine
                        :: (deleteLoop .machine c.deleteM mItems).1
                        ++ (pollMachines c pollIterations 1).1)
                      = deleteKinds (deleteLoop .machineDeployment c.deleteMD mdItems).1
                        ++ deleteKinds (deleteLoop .machineSet c.deleteMS msItems).1
                        ++ (deleteKinds (deleteLoop .machine c.deleteM mItems).1
                            ++ deleteKinds (pollMachines c pollIterations 1).1) by
                      simp [deleteKinds, deleteKind]]
                  rw [pollMachines_kinds c pollIterations 1, List.append_nil]
                  exact pairwise_rank_three _ _ _ t1 t2 t3

/-- C7: for any execution of `DeleteAllMachines` that completes
successfully, the delete calls in its trace are ordered by kind: every
MachineDeployment delete is issued before every MachineSet delete, and
every MachineSet delete before every Machine delete (the projected kind
sequence is sorted by hierarchy rank). -/
theorem c7_deletes_ordered_by_kind (ctx : Context) (t : List Event)
    (h : DeleteAllMachines ctx = (t, .ok ())) :
    List.Pairwise (fun a b => rank a ≤ rank b) (deleteKinds t) := by
  have hh := deleteAllMachines_delete_order ctx
  rw [h] at hh
  exact hh

/-- Witness for C7 at a concrete client holding one object of each kind,
whose cascade succeeds. -/
theorem c7_witness :
    List.Pairwise (fun a b => rank a ≤ rank b)
      (deleteKinds (DeleteAllMachines ⟨true, some clientFull⟩).1) :=
  c7_deletes_ordered_by_kind ⟨true, some clientFull⟩
    (DeleteAllMachines ⟨true, some clientFull⟩).1 rfl

end machinecontroller

namespace e2e

/-- An environment with all credential variables unset (empty). -/
def envNoCreds : Env := ⟨fun _ => "", fun _ => .ok ""⟩

/-- An environment with credentials set in which every `terraform`
invocation fails while every other command succeeds. -/
def envTerraformFails : Env :=
  ⟨fun _ => "x", fun c => if c.name = "terraform" then .error "boom" else .ok ""⟩

/-- An environment with credentials set in which exactly the
`terraform init` invocation (argument list starting with "init") fails. -/
def envInitFails : Env :=
  ⟨fun _ => "x", fun c => if c.args.head? = some "init" then .error "boom" else .ok ""⟩

/-- C1 counterexample: with a destroy failure, `Cleanup` of the AWS
provisioner returns the destroy error but its trace consists of the single
destroy invocation — no `rm` command is run, so removal of the scratch
test directory is NOT attempted. -/
theorem c1_counterexample :
    (NewAWSProvisioner "/tmp/kubeone-test" "").Cleanup envTerraformFails
      = ([⟨"../../examples/terraform/aws/", "terraform", ["destroy", "-auto-approve"]⟩],
         some "terraform destroy command failed: boom") ∧
    ¬ ∃ c ∈ ((NewAWSProvisioner "/tmp/kubeone-test" "").Cleanup envTerraformFails).1,
        c.name = "rm" := by
  refine ⟨rfl, ?_⟩
  decide

/-- C1 (amended): for every provider variant, when the terraform destroy
step fails, `Cleanup` returns the destroy failure (wrapped with destroy
context) immediately: its trace is exactly the destroy invocation, and in
particular no `rm` command is invoked, so the scratch test directory is
not removed. -/
theorem c1_cleanup_stops_on_destroy_failure (env : Env) (e : String)
    (pa : AWSProvisioner) (pd : DOProvisioner) (ph : HetznerProvisioner) :
    (env.exec ⟨pa.terraform.terraformDir, "terraform", ["destroy", "-auto-approve"]⟩
        = .error e →
      pa.Cleanup env
        = ([⟨pa.terraform.terraformDir, "terraform", ["destroy", "-auto-approve"]⟩],
           some ("terraform destroy command failed: " ++ e)) ∧
      ∀ c ∈ (pa.Cleanup env).1, c.name ≠ "rm") ∧
    (env.exec ⟨pd.terraform.terraformDir, "terraform", ["destroy", "-auto-approve"]⟩
        = .error e →
      pd.Cleanup env
        = ([⟨pd.terraform.terraformDir, "terraform", ["destroy", "-auto-approve"]⟩],
           some ("terraform destroy command failed: " ++ e)) ∧
      ∀ c ∈ (pd.Cleanup env).1, c.name ≠ "rm") ∧
    (env.exec ⟨ph.terraform.terraformDir, "terraform", ["destroy", "-auto-approve"]⟩
        = .error e →
      ph.Cleanup env
        = ([⟨ph.terraform.terraformDir, "terraform", ["destroy", "-auto-approve"]⟩],
           some ("terraform destroy command failed: " ++ e)) ∧
      ∀ c ∈ (ph.Cleanup env).1, c.name ≠ "rm") := by
  refine ⟨fun h => ?_, fun h => ?_, fun h => ?_⟩ <;>
    (constructor
     · simp [AWSProvisioner.Cleanup, DOProvisioner.Cleanup, HetznerProvisioner.Cleanup,
         terraform.destroy, h]
     · intro c hc
       simp [AWSProvisioner.Cleanup, DOProvisioner.Cleanup, HetznerProvisioner.Cleanup,
         terraform.destroy, h] at hc
       simp [hc])

/-- Witness for C1 (amended) at a concrete DigitalOcean provisioner and
the environment whose terraform invocations fail. -/
theorem c1_witness :
    (NewDOProvisioner "/tmp/kubeone-test" "").Cleanup envTerraformFails
      = ([⟨"../../examples/terraform/digitalocean/", "terraform",
           ["destroy", "-auto-approve"]⟩],
         some ("terraform destroy command failed: " ++ "boom")) ∧
    ∀ c ∈ ((NewDOProvisioner "/tmp/kubeone-test" "").Cleanup envTerraformFails).1,
      c.name ≠ "rm" :=
  (c1_cleanup_stops_on_destroy_failure envTerraformFails "boom"
    (NewAWSProvisioner "/tmp/kubeone-test" "") (NewDOProvisioner "/tmp/kubeone-test" "")
    (NewHetznerProvisioner "/tmp/kubeone-test" "")).2.1 rfl

/-- C4: for every provider variant, if any required credential environment
variable is empty, `Provision` returns the configuration error and the
trace is empty — zero subprocesses are invoked. -/
theorem c4_empty_credentials_no_subprocess (env : Env)
    (pa : AWSProvisioner) (pd : DOProvisioner) (ph : HetznerProvisioner) :
    ((env.getenv "AWS_ACCESS_KEY_ID" = "" ∨ env.getenv "AWS_SECRET_ACCESS_KEY" = "") →
      pa.Provision env
        = ([], .error "unable to run the test suite, AWS_ACCESS_KEY_ID or AWS_SECRET_ACCESS_KEY environment variables cannot be empty")) ∧
    (env.getenv "DIGITALOCEAN_TOKEN" = "" →
      pd.Provision env
        = ([], .error "unable to run the test suite, DIGITALOCEAN_TOKEN environment variable cannot be empty")) ∧
    (env.getenv "HCLOUD_TOKEN" = "" →
      ph.Provision env
        = ([], .error "unable to run the test suite, HCLOUD_TOKEN environment variable cannot be empty")) := by
  refine ⟨fun h => ?_, fun h => ?_, fun h => ?_⟩
  · rcases h with h | h <;> simp [AWSProvisioner.Provision, h]
  · simp [DOProvisioner.Provision, h]
  · simp [HetznerProvisioner.Provision, h]

/-- Witness for C4 at the environment with all variables unset, for all
three providers. -/
theorem c4_witness :
    (NewAWSProvisioner "/tmp/kubeone-test" "id").Provision envNoCreds
      = ([], .error "unable to run the test suite, AWS_ACCESS_KEY_ID or AWS_SECRET_ACCESS_KEY environment variables cannot be empty") ∧
    (NewDOProvisioner "/tmp/kubeone-test" "id").Provision envNoCreds
      = ([], .error "unable to run the test suite, DIGITALOCEAN_TOKEN environment variable cannot be empty") ∧
    (NewHetznerProvisioner "/tmp/kubeone-test" "id").Provision envNoCreds
      = ([], .error "unable to run the test suite, HCLOUD_TOKEN environment variable cannot be empty") :=
  ⟨(c4_empty_credentials_no_subprocess envNoCreds (NewAWSProvisioner "/tmp/kubeone-test" "id")
      (NewDOProvisioner "/tmp/kubeone-test" "id") (NewHetznerProvisioner "/tmp/kubeone-test" "id")).1
      (Or.inl rfl),
   (c4_empty_credentials_no_subprocess envNoCreds (NewAWSProvisioner "/tmp/kubeone-test" "id")
      (NewDOProvisioner "/tmp/kubeone-test" "id") (NewHetznerProvisioner "/tmp/kubeone-test" "id")).2.1
      rfl,
   (c4_empty_credentials_no_subprocess envNoCreds (NewAWSProvisioner "/tmp/kubeone-test" "id")
      (NewDOProvisioner "/tmp/kubeone-test" "id") (NewHetznerProvisioner "/tmp/kubeone-test" "id")).2.2
      rfl⟩

end e2e

namespace e2e

/-- A non-empty string has non-zero length. -/
theorem length_ne_zero_of_ne_empty (s : String) (h : s ≠ "") : s.length ≠ 0 := by
  intro h0
  apply h
  cases s with
  | mk data =>
    cases data with
    | nil => rfl
    | cons a l => simp [String.length] at h0

/-- The init argument list carries the backend-config override exactly
when the run identifier is non-empty (the source tests the length, the
claim speaks of emptiness; the two conditions agree). -/
theorem initArgs_iff_identifier (p : terraform) :
    (if p.idendifier.length > 0 then
       ["init", "--backend-config=key=" ++ p.idendifier]
     else ["init"])
    = (if p.idendifier = "" then ["init"]
       else ["init", "--backend-config=key=" ++ p.idendifier]) := by
  by_cases h : p.idendifier = ""
  · simp [h]
  · have hne : p.idendifier.length ≠ 0 := length_ne_zero_of_ne_empty _ h
    simp [h, Nat.pos_of_ne_zero hne]

/-- The output-stage state flag expands to its literal form. -/
theorem stateFlag_literal : "-state=" ++ tfStateFileName = "-state=terraform.tfstate" := rfl

/-- C5: for every stage of the init → apply → read-output pipeline, a
failure of that stage makes `initAndApply` return an error wrapping that
stage's output with stage-identifying context, with no subsequent stage
invoked (the trace ends at the failing stage); and with non-empty
credentials every provider variant's `Provision` delegates to exactly this
pipeline. -/
theorem c5_stage_failure_no_subsequent_stage (p : terraform) (env : Env)
    (e o1 o2 : String)
    (pa : AWSProvisioner) (pd : DOProvisioner) (ph : HetznerProvisioner) :
    (env.exec ⟨p.terraformDir, "terraform",
        if p.idendifier.length > 0 then ["init", "--backend-config=key=" ++ p.idendifier]
        else ["init"]⟩ = .error e →
      p.initAndApply env
        = ([⟨p.terraformDir, "terraform",
             if p.idendifier.length > 0 then ["init", "--backend-config=key=" ++ p.idendifier]
             else ["init"]⟩],
           .error ("terraform init command failed: " ++ e))) ∧
    (env.exec ⟨p.terraformDir, "terraform",
        if p.idendifier.length > 0 then ["init", "--backend-config=key=" ++ p.idendifier]
        else ["init"]⟩ = .ok o1 →
      env.exec ⟨p.terraformDir, "terraform", ["apply", "-auto-approve"]⟩ = .error e →
      p.initAndApply env
        = ([⟨p.terraformDir, "terraform",
             if p.idendifier.length > 0 then ["init", "--backend-config=key=" ++ p.idendifier]
             else ["init"]⟩,
            ⟨p.terraformDir, "terraform", ["apply", "-auto-approve"]⟩],
           .error ("terraform apply command failed: " ++ e))) ∧
    (env.exec ⟨p.terraformDir, "terraform",
        if p.idendifier.length > 0 then ["init", "--backend-config=key=" ++ p.idendifier]
        else ["init"]⟩ = .ok o1 →
      env.exec ⟨p.terraformDir, "terraform", ["apply", "-auto-approve"]⟩ = .ok o2 →
      env.exec ⟨p.terraformDir, "terraform",
        ["output", "-state=" ++ tfStateFileName, "-json"]⟩ = .error e →
      p.initAndApply env
        = ([⟨p.terraformDir, "terraform",
             if p.idendifier.length > 0 then ["init", "--backend-config=key=" ++ p.idendifier]
             else ["init"]⟩,
            ⟨p.terraformDir, "terraform", ["apply", "-auto-approve"]⟩,
            ⟨p.terraformDir, "terraform", ["output", "-state=" ++ tfStateFileName, "-json"]⟩],
           .error ("generating tf json failed: " ++ e))) ∧
    (env.getenv "AWS_ACCESS_KEY_ID" ≠ "" → env.getenv "AWS_SECRET_ACCESS_KEY" ≠ "" →
      pa.Provision env = pa.terraform.initAndApply env) ∧
    (env.getenv "DIGITALOCEAN_TOKEN" ≠ "" →
      pd.Provision env = pd.terraform.initAndApply env) ∧
    (env.getenv "HCLOUD_TOKEN" ≠ "" →
      ph.Provision env = ph.terraform.initAndApply env) := by
  refine ⟨fun h1 => ?_, fun h1 h2 => ?_, fun h1 h2 h3 => ?_,
          fun ha hb => ?_, fun hd => ?_, fun hh => ?_⟩
  · simp [terraform.initAndApply, h1]
  · simp [terraform.initAndApply, h1, h2]
  · simp [terraform.initAndApply, terraform.getTFJson, h1, h2, h3]
  · have ha2 : (env.getenv "AWS_ACCESS_KEY_ID").length ≠ 0 :=
      length_ne_zero_of_ne_empty _ ha
    have hb2 : (env.getenv "AWS_SECRET_ACCESS_KEY").length ≠ 0 :=
      length_ne_zero_of_ne_empty _ hb
    simp [AWSProvisioner.Provision, ha2, hb2]
  · have hd2 : (env.getenv "DIGITALOCEAN_TOKEN").length ≠ 0 :=
      length_ne_zero_of_ne_empty _ hd
    simp [DOProvisioner.Provision, hd2]
  · have hh2 : (env.getenv "HCLOUD_TOKEN").length ≠ 0 :=
      length_ne_zero_of_ne_empty _ hh
    simp [HetznerProvisioner.Provision, hh2]

/-- Witness for C5 at a concrete terraform context whose init invocation
fails: the pipeline stops after the single init call. -/
theorem c5_witness :
    terraform.initAndApply ⟨"d", ""⟩ envInitFails
      = ([⟨"d", "terraform", ["init"]⟩],
         .error ("terraform init command failed: " ++ "boom")) :=
  (c5_stage_failure_no_subsequent_stage ⟨"d", ""⟩ envInitFails "boom" "" ""
    (NewAWSProvisioner "t" "") (NewDOProvisioner "t" "")
    (NewHetznerProvisioner "t" "")).1 rfl

/-- C8: the wire contract with the external tool: init is invoked with
exactly `init`, plus `--backend-config=key=<identifier>` appended exactly
when the identifier is non-empty; apply with `apply -auto-approve`;
destroy with `destroy -auto-approve`; output with
`output -state=terraform.tfstate -json`; every invocation of the pipeline
runs `terraform` in the provider's fixed example directory, and the three
constructors fix those directories. -/
theorem c8_wire_contract_exact_argv (p : terraform) (env : Env) (tp id : String) :
    (NewAWSProvisioner tp id).terraform.terraformDir = "../../examples/terraform/aws/" ∧
    (NewDOProvisioner tp id).terraform.terraformDir = "../../examples/terraform/digitalocean/" ∧
    (NewHetznerProvisioner tp id).terraform.terraformDir = "../../examples/terraform/hetzner/" ∧
    (p.destroy env).1 = [⟨p.terraformDir, "terraform", ["destroy", "-auto-approve"]⟩] ∧
    (p.getTFJson env).1
      = [⟨p.terraformDir, "terraform", ["output", "-state=terraform.tfstate", "-json"]⟩] ∧
    (p.initAndApply env).1.head?
      = some ⟨p.terraformDir, "terraform",
          if p.idendifier = "" then ["init"]
          else ["init", "--backend-config=key=" ++ p.idendifier]⟩ ∧
    (∃ t, (p.initAndApply env).1 ++ t
      = [⟨p.terraformDir, "terraform",
           if p.idendifier = "" then ["init"]
           else ["init", "--backend-config=key=" ++ p.idendifier]⟩,
         ⟨p.terraformDir, "terraform", ["apply", "-auto-approve"]⟩,
         ⟨p.terraformDir, "terraform", ["output", "-state=terraform.tfstate", "-json"]⟩]) := by
  refine ⟨rfl, rfl, rfl, ?_, ?_, ?_, ?_⟩
  · cases h : env.exec ⟨p.terraformDir, "terraform", ["destroy", "-auto-approve"]⟩ <;>
      simp [terraform.destroy, h]
  · cases h : env.exec ⟨p.terraformDir, "terraform",
        ["output", "-state=" ++ tfStateFileName, "-json"]⟩ <;>
      · rw [stateFlag_literal] at h
        simp [terraform.getTFJson, h, stateFlag_literal]
  · rw [← initArgs_iff_identifier p]
    cases h1 : env.exec ⟨p.terraformDir, "terraform",
        if p.idendifier.length > 0 then ["init", "--backend-config=key=" ++ p.idendifier]
        else ["init"]⟩ with
    | error e => simp [terraform.initAndApply, h1]
    | ok o =>
      cases h2 : env.exec ⟨p.terraformDir, "terraform", ["apply", "-auto-approve"]⟩ <;>
        simp [terraform.initAndApply, h1, h2]
  · rw [← initArgs_iff_identifier p]
    cases h1 : env.exec ⟨p.terraformDir, "terraform",
        if p.idendifier.length > 0 then ["init", "--backend-config=key=" ++ p.idendifier]
        else ["init"]⟩ with
    | error e =>
      refine ⟨[⟨p.terraformDir, "terraform", ["apply", "-auto-approve"]⟩,
               ⟨p.terraformDir, "terraform", ["output", "-state=terraform.tfstate", "-json"]⟩],
              ?_⟩
      simp [terraform.initAndApply, h1]
    | ok o =>
      cases h2 : env.exec ⟨p.terraformDir, "terraform", ["apply", "-auto-approve"]⟩ with
      | error e =>
        refine ⟨[⟨p.terraformDir, "terraform", ["output", "-state=terraform.tfstate", "-json"]⟩],
                ?_⟩
        simp [terraform.initAndApply, h1, h2]
      | ok o2 =>
        cases h3 : env.exec ⟨p.terraformDir, "terraform",
            ["output", "-state=" ++ tfStateFileName, "-json"]⟩ <;>
          · rw [stateFlag_literal] at h3
            refine ⟨[], ?_⟩
            simp [terraform.initAndApply, terraform.getTFJson, h1, h2, h3, stateFlag_literal]

end e2e
